import Mathlib

/-!
Shallow embedding of `autotrader.py`: the fetch/cache/extract/filter/rank
pipeline.  Dictionaries holding listing data are modelled as a `Car`
structure whose fields are the keys that `extract_car_data` always writes
(string-valued, as produced by the scraper), plus the `id` overlay written
by `sort_cars_with_gpt`.  Python built-ins (`int`, `float`, `str.replace`,
`str.split`) are modelled over `List Char` below.
-/

namespace AutoTrader

/-- Value of a list of decimal digit characters read left to right. -/
def digitsToNat (cs : List Char) : Nat :=
  cs.foldl (fun a c => a * 10 + (c.toNat - 48)) 0

/-- Python `str.strip()` of surrounding whitespace, on the character list. -/
def trimChars (cs : List Char) : List Char :=
  ((cs.dropWhile Char.isWhitespace).reverse.dropWhile Char.isWhitespace).reverse

/-- Nonempty all-digit run parsed to a natural number, else `none`. -/
def pyDigits (cs : List Char) : Option Int :=
  if cs ≠ [] ∧ cs.all Char.isDigit then some (digitsToNat cs) else none

/-- Model of Python `int(s)` on a string: optional surrounding whitespace,
optional sign, one or more ASCII digits; anything else raises `ValueError`,
modelled as `none`.  (CPython extras that never occur in this pipeline —
underscore grouping, non-ASCII digits — are not modelled.) -/
def pyInt (s : String) : Option Int :=
  match trimChars s.data with
  | '-' :: cs => (pyDigits cs).map (fun n => -n)
  | '+' :: cs => pyDigits cs
  | cs => pyDigits cs

/-- Splitting a character list at every occurrence of the character `d`,
like Python `s.split(d)`: `"".split` gives `[""]`, separators at the ends
give empty segments. -/
def splitOnChar (d : Char) : List Char → List (List Char)
  | [] => [[]]
  | c :: cs =>
    let r := splitOnChar d cs
    if c = d then [] :: r
    else
      match r with
      | h :: t => (c :: h) :: t
      | [] => [[c]]

/-- Unsigned decimal numeral with an optional fractional part, as accepted
by Python `float` (exponents and `inf`/`nan`, unused by this pipeline, are
not modelled); the value is exact, as a rational. -/
def pyFloatUnsigned (cs : List Char) : Option ℚ :=
  match splitOnChar '.' cs with
  | [w] => if w ≠ [] ∧ w.all Char.isDigit then some (digitsToNat w) else none
  | [w, f] =>
    if (w ≠ [] ∨ f ≠ []) ∧ w.all Char.isDigit ∧ f.all Char.isDigit then
      some ((digitsToNat w : ℚ) + (digitsToNat f : ℚ) / (10 ^ f.length : ℚ))
    else none
  | _ => none

/-- Model of Python `float(s)`: whitespace stripped, optional sign, then an
unsigned numeral; failure (`ValueError`) is `none`. -/
def pyFloat (s : String) : Option ℚ :=
  match trimChars s.data with
  | '-' :: cs => (pyFloatUnsigned cs).map (fun q => -q)
  | '+' :: cs => pyFloatUnsigned cs
  | cs => pyFloatUnsigned cs

/-- Worker for `stripAll`, structurally recursive on a fuel argument so
that it evaluates in the kernel; every recursive call consumes at least
one character, so `fuel = cs.length` never runs out. -/
def stripAllFuel (pat : List Char) : Nat → List Char → List Char
  | _, [] => []
  | 0, cs => cs
  | fuel + 1, c :: rest =>
    if pat ≠ [] ∧ pat.isPrefixOf (c :: rest) then
      stripAllFuel pat fuel ((c :: rest).drop pat.length)
    else
      c :: stripAllFuel pat fuel rest

/-- Remove every occurrence of the nonempty pattern `pat`, scanning left to
right without overlap: Python `s.replace(pat, "")` (every use of
`str.replace` in `autotrader.py` replaces with the empty string). -/
def stripAll (pat cs : List Char) : List Char :=
  stripAllFuel pat cs.length cs

/-- String version of `stripAll`. -/
def stripStr (pat : String) (s : String) : String :=
  String.mk (stripAll pat.data s.data)

/-- Line 342: `car_data.get("price", "0").replace(",", "").replace("$", "")`. -/
def cleanPrice (s : String) : String := stripStr "$" (stripStr "," s)

/-- Line 343: `car_data.get("mileage", "0").replace(",", "").replace(" km", "")`. -/
def cleanMileage (s : String) : String := stripStr " km" (stripStr "," s)

/-- A listing record: the dictionary shape produced by `extract_car_data`
(all keys present, string values, exactly as scraped), together with the
`id` key that `sort_cars_with_gpt` writes onto records before serialization
(`none` until then). -/
structure Car where
  url : String := ""
  make : String := ""
  model : String := ""
  year : String := ""
  trim : String := ""
  price : String := ""
  mileage : String := ""
  drivetrain : String := ""
  color : String := ""
  interior_color : String := ""
  engine : String := ""
  doors : String := ""
  fuel_type : String := ""
  id : Option Int := none
  deriving DecidableEq, Repr

/-! ## Filter & Rank Engine: `filter_and_rank_cars` (lines 327-369) -/

/-- Lines 329-335: the year range is a single integer, or two integers
separated by `-`; `'-' in year_range` chooses the branch, and any
`ValueError` (non-numeric part, or a segment count other than two in the
unpacking) makes the whole step fail (`none`). -/
def parseYearRange (yr : String) : Option (Int × Int) :=
  if yr.data.contains '-' then
    match splitOnChar '-' yr.data with
    | [a, b] =>
      match pyInt (String.mk a), pyInt (String.mk b) with
      | some s, some e => some (s, e)
      | _, _ => none
    | _ => none
  else
    (pyInt yr).map fun y => (y, y)

/-- Lines 342-346: clean and coerce the record's price, mileage and year.
An empty cleaned price or mileage string is defaulted to `0` (the
`if price_raw else 0` guards); a nonempty non-numeric string, or a
non-numeric year, raises `ValueError`, modelled as `none`. -/
def parseCarNums (c : Car) : Option (ℚ × Int × Int) :=
  let price_raw := cleanPrice c.price
  let mileage_raw := cleanMileage c.mileage
  match (if price_raw = "" then some 0 else pyFloat price_raw) with
  | none => none
  | some p =>
    match (if mileage_raw = "" then some (0 : Int) else pyInt mileage_raw) with
    | none => none
    | some mi =>
      match pyInt c.year with
      | none => none
      | some y => some (p, mi, y)

/-- Lines 339-366: a record is kept when its numbers parse and it passes
the three `continue` guards (price, mileage, year window); a record whose
numbers raise `ValueError` is skipped. -/
def keepCar (max_mileage_km : Int) (ys : Int × Int) (max_price : Int) (c : Car) : Bool :=
  match parseCarNums c with
  | none => false
  | some (p, mi, y) =>
    if p > (max_price : ℚ) then false
    else if mi > max_mileage_km then false
    else if ¬(ys.1 ≤ y ∧ y ≤ ys.2) then false
    else true

/-- Python string `<`: lexicographic comparison by code point. -/
def strLt : List Char → List Char → Bool
  | [], [] => false
  | [], _ :: _ => true
  | _ :: _, [] => false
  | a :: as, b :: bs => if a = b then strLt as bs else decide (a < b)

/-- Python string `<=`: lexicographic comparison by code point. -/
def strLe : List Char → List Char → Bool
  | [], _ => true
  | _ :: _, [] => false
  | a :: as, b :: bs => if a = b then strLe as bs else decide (a < b)

theorem strLt_trans : ∀ {a b c : List Char},
    strLt a b = true → strLt b c = true → strLt a c = true
  | [], _ :: _, _ :: _, _, _ => rfl
  | [], [], _, h, _ => by simp [strLt] at h
  | _, _ :: _, [], _, h => by simp [strLt] at h
  | _ :: _, [], _, h, _ => by simp [strLt] at h
  | x :: xs, y :: ys, z :: zs, h1, h2 => by
    simp only [strLt] at h1 h2 ⊢
    by_cases hxy : x = y
    · subst hxy
      rw [if_pos rfl] at h1
      by_cases hyz : x = z
      · subst hyz
        rw [if_pos rfl] at h2 ⊢
        exact strLt_trans h1 h2
      · rw [if_neg hyz] at h2 ⊢
        exact h2
    · rw [if_neg hxy] at h1
      by_cases hyz : y = z
      · subst hyz
        rw [if_neg hxy]
        exact h1
      · rw [if_neg hyz] at h2
        have hlt : x < z := lt_trans (of_decide_eq_true h1) (of_decide_eq_true h2)
        rw [if_neg (ne_of_lt hlt)]
        exact decide_eq_true hlt

theorem strLt_trichotomy : ∀ a b : List Char,
    strLt a b = true ∨ a = b ∨ strLt b a = true
  | [], [] => Or.inr (Or.inl rfl)
  | [], _ :: _ => Or.inl rfl
  | _ :: _, [] => Or.inr (Or.inr rfl)
  | x :: xs, y :: ys => by
    rcases lt_trichotomy x y with h | h | h
    · refine Or.inl ?_
      simp only [strLt]
      rw [if_neg (ne_of_lt h)]
      exact decide_eq_true h
    · subst h
      rcases strLt_trichotomy xs ys with h2 | h2 | h2
      · exact Or.inl (by simp [strLt, h2])
      · exact Or.inr (Or.inl (by rw [h2]))
      · exact Or.inr (Or.inr (by simp [strLt, h2]))
    · refine Or.inr (Or.inr ?_)
      simp only [strLt]
      rw [if_neg (ne_of_lt h)]
      exact decide_eq_true h

theorem strLe_iff : ∀ a b : List Char,
    strLe a b = true ↔ (strLt a b = true ∨ a = b)
  | [], [] => by simp [strLe, strLt]
  | [], _ :: _ => by simp [strLe, strLt]
  | _ :: _, [] => by simp [strLe, strLt]
  | x :: xs, y :: ys => by
    by_cases hxy : x = y
    · subst hxy
      simp only [strLe, strLt, if_pos rfl, List.cons.injEq, true_and]
      exact (strLe_iff xs ys).trans (by simp)
    · simp only [strLe, strLt, if_neg hxy, List.cons.injEq]
      simp [hxy]

/-- Line 369 sort key comparison: the raw dictionary values
`(car["price"], car["mileage"])`, which in this pipeline are strings,
compared as Python compares them — strings lexicographically by code
point, tuples lexicographically. -/
def keyLeB (a b : Car) : Bool :=
  strLt a.price.data b.price.data ||
    (a.price == b.price && strLe a.mileage.data b.mileage.data)

/-- The sort key order as a relation, for `List.insertionSort`. -/
def keyLe (a b : Car) : Prop := keyLeB a b = true

instance : DecidableRel keyLe := fun a b => by
  unfold keyLe; infer_instance

theorem eq_of_data_eq {s t : String} (h : s.data = t.data) : s = t := by
  cases s
  cases t
  exact congrArg String.mk h

theorem keyLe_iff {a b : Car} : keyLe a b ↔
    (strLt a.price.data b.price.data = true ∨
      (a.price = b.price ∧ (strLt a.mileage.data b.mileage.data = true ∨
        a.mileage = b.mileage))) := by
  unfold keyLe keyLeB
  rw [Bool.or_eq_true, Bool.and_eq_true, beq_iff_eq, strLe_iff]
  constructor
  · rintro (h | ⟨h1, h2⟩)
    · exact Or.inl h
    · refine Or.inr ⟨h1, ?_⟩
      rcases h2 with h2 | h2
      · exact Or.inl h2
      · exact Or.inr (eq_of_data_eq h2)
  · rintro (h | ⟨h1, h2⟩)
    · exact Or.inl h
    · refine Or.inr ⟨h1, ?_⟩
      rcases h2 with h2 | h2
      · exact Or.inl h2
      · exact Or.inr (by rw [h2])

instance : IsTotal Car keyLe where
  total a b := by
    rw [keyLe_iff, keyLe_iff]
    rcases strLt_trichotomy a.price.data b.price.data with h | h | h
    · exact Or.inl (Or.inl h)
    · have hpe : a.price = b.price := eq_of_data_eq h
      rcases strLt_trichotomy a.mileage.data b.mileage.data with h2 | h2 | h2
      · exact Or.inl (Or.inr ⟨hpe, Or.inl h2⟩)
      · exact Or.inl (Or.inr ⟨hpe, Or.inr (eq_of_data_eq h2)⟩)
      · exact Or.inr (Or.inr ⟨hpe.symm, Or.inl h2⟩)
    · exact Or.inr (Or.inl h)

instance : IsTrans Car keyLe where
  trans a b c hab hbc := by
    rw [keyLe_iff] at hab hbc ⊢
    rcases hab with h1 | ⟨e1, m1⟩
    · rcases hbc with h2 | ⟨e2, _⟩
      · exact Or.inl (strLt_trans h1 h2)
      · exact Or.inl (e2 ▸ h1)
    · rcases hbc with h2 | ⟨e2, m2⟩
      · exact Or.inl (e1 ▸ h2)
      · refine Or.inr ⟨e1.trans e2, ?_⟩
        rcases m1 with m1 | m1
        · rcases m2 with m2 | m2
          · exact Or.inl (strLt_trans m1 m2)
          · exact Or.inl (m2 ▸ m1)
        · rcases m2 with m2 | m2
          · exact Or.inl (m1 ▸ m2)
          · exact Or.inr (m1.trans m2)

/-- Records with equal raw price and mileage strings compare `keyLe` both
ways: the sort key cannot separate them, so a stable sort keeps their
input order. -/
theorem keyLe_of_same_key {x y : Car} (hp : x.price = y.price)
    (hm : x.mileage = y.mileage) : keyLe x y :=
  keyLe_iff.mpr (Or.inr ⟨hp, Or.inr hm⟩)

/-- Lines 327-369, `filter_and_rank_cars`: parse the year range (malformed
input aborts with `[]`), keep the records passing `keepCar`, and return
them sorted stably by the `(price, mileage)` key (`sorted` with a `key`
function is a stable sort, i.e. `insertionSort` under `keyLe`). -/
def filter_and_rank_cars (car_data_list : List Car) (max_mileage_km : Int)
    (year_range : String) (max_price : Int) : List Car :=
  match parseYearRange year_range with
  | none => []
  | some ys =>
    List.insertionSort keyLe (car_data_list.filter (keepCar max_mileage_km ys max_price))

/-- The records that survive the per-record predicate, in input order;
malformed year range keeps nothing.  Used to compare the engine's output
against its input (ordering claims). -/
def keptCars (car_data_list : List Car) (max_mileage_km : Int)
    (year_range : String) (max_price : Int) : List Car :=
  match parseYearRange year_range with
  | none => []
  | some ys => car_data_list.filter (keepCar max_mileage_km ys max_price)

/-! ## Cache Store and Page Fetcher (lines 200-250) -/

def URL_BASE : String := "https://www.autotrader.ca"

/-- Python `\w` over the ASCII range (URLs are ASCII). -/
def isWordChar (c : Char) : Bool := c.isAlphanum || c = '_'

/-- Lines 201/210/216: `re.sub(r'[^\w]', '_', url) + ".json"`, the cache
filename derived from the URL. -/
def cacheKey (url : String) : String :=
  String.mk (url.data.map (fun c => if isWordChar c then c else '_')) ++ ".json"

/-- Content of a cache file as seen through `json.load`: a record the file
deserializes to, or a malformed file on which `json.load` raises
`json.JSONDecodeError` (`json.dump`/`json.load` round-trip faithfully, so
the byte-level encoding is abstracted away). -/
inductive CacheContent where
  | ok (car : Car)
  | corrupt
  deriving DecidableEq

/-- A cache file: `fresh` is the line-204 freshness test
`now - mtime < timedelta(days=CACHE_DAYS)` evaluated at the current run. -/
structure CacheFile where
  fresh : Bool
  content : CacheContent
  deriving DecidableEq

/-- The cache directory: cache filename to file (absent = `none`). -/
def Cache := String → Option CacheFile

/-- Lines 200-206, `is_url_cached`: the file exists and is within the TTL. -/
def is_url_cached (cache : Cache) (url : String) : Bool :=
  match cache (cacheKey url) with
  | some f => f.fresh
  | none => false

/-- Outcome of `load_url_cache`: the returned value, or an exception from
`json.load` on a malformed file. -/
inductive LoadResult where
  | value (d : Option Car)
  | raises
  deriving DecidableEq

/-- Lines 215-220, `load_url_cache`: parse the cache file if it exists
(malformed content raises), else return `None`. -/
def load_url_cache (cache : Cache) (url : String) : LoadResult :=
  match cache (cacheKey url) with
  | some f =>
    match f.content with
    | .ok car => .value (some car)
    | .corrupt => .raises
  | none => .value none

/-- Lines 209-212, `save_url_cache`: unconditional whole-record overwrite;
the new file's mtime is now, hence fresh. -/
def save_url_cache (cache : Cache) (url : String) (car : Car) : Cache :=
  fun k =>
    if k = cacheKey url then some { fresh := true, content := .ok car }
    else cache k

/-- The world outside `fetch_car_page`: `net url` is the body text of a
successful `requests.get` (a `RequestException`, including non-2xx raised
by `raise_for_status`, is `none`); `extract html url` abstracts
`extract_car_data` (its HTML parsing is outside this embedding), where
`none` stands for the empty record `{}` it returns on any per-listing
extraction failure (an empty dict is falsy, so it is neither cached nor
accumulated). -/
structure FetchEnv where
  net : String → Option String
  extract : String → String → Option Car

/-- Result of `fetch_car_page` for one URL: the record it returns (`none`
for Python `None` or the falsy `{}`), and whether a network request was
made. -/
structure FetchResult where
  data : Option Car
  network : Bool
  deriving DecidableEq

/-- Lines 223-239, `fetch_car_page`: on a valid cache hit return the loaded
record — a `json.JSONDecodeError` from `load_url_cache` escapes to the
generic `except Exception` handler, which logs and returns `None` (no
network request happens on this path).  On a miss, fetch over the network
(transport errors are caught, `None`), extract, and cache the record if it
is non-empty. -/
def fetch_car_page (env : FetchEnv) (cache : Cache) (url : String) :
    FetchResult × Cache :=
  if is_url_cached cache url then
    match load_url_cache cache url with
    | .value d => ({ data := d, network := false }, cache)
    | .raises => ({ data := none, network := false }, cache)
  else
    match env.net url with
    | none => ({ data := none, network := true }, cache)
    | some html =>
      match env.extract html url with
      | some car => ({ data := some car, network := true }, save_url_cache cache url car)
      | none => ({ data := none, network := true }, cache)

/-- Lines 244-250, `get_car_pages`: fetch every URL in order, keeping the
truthy results. -/
def get_car_pages (env : FetchEnv) (cache : Cache) :
    List String → List Car × Cache
  | [] => ([], cache)
  | url :: rest =>
    let r := fetch_car_page env cache url
    let rs := get_car_pages env r.2 rest
    match r.1.data with
    | some car => (car :: rs.1, rs.2)
    | none => rs

/-! ## Search Orchestrator (lines 188-196 and the `main` loop, 466-490) -/

/-- Line 192: `href.startswith('/a/')`. -/
def hrefIsListing (h : String) : Bool := "/a/".data.isPrefixOf h.data

/-- Lines 188-196, `get_car_page_urls`: keep the listing-detail anchors of
the search page (given here as its list of `href` values), prepend
`URL_BASE`, and deduplicate via `list(set(...))`.  Python's set iteration
order is unspecified; `List.dedup` stands in for it (the claims touching
this function are order-insensitive). -/
def get_car_page_urls (hrefs : List String) : List String :=
  ((hrefs.filter hrefIsListing).map (fun h => URL_BASE ++ h)).dedup

/-- The world of the `main` loop: additionally, `search term` gives the
anchors hrefs of the search-results page for one search term (`none` =
`search_autotrader` returned `None` after a transport error). -/
structure MainEnv extends FetchEnv where
  search : String → Option (List String)

/-- Lines 466-490, the accumulation loop of `main` over the search terms:
for each term, discover listing URLs, fetch each page (through the cache),
and append every record obtained (a record returned by `fetch_car_page` is
a nonempty dict and always carries its `url` key, so the
`if car_data and 'url' in car_data` test passes; a term with no pages, or
a failed search, is skipped).  The cache is threaded through in program
order. -/
def collectRecords (env : MainEnv) (cache : Cache) :
    List String → List Car × Cache
  | [] => ([], cache)
  | term :: rest =>
    match env.search term with
    | none => collectRecords env cache rest
    | some hrefs =>
      let urls := get_car_page_urls hrefs
      let pr := get_car_pages env.toFetchEnv cache urls
      let rr := collectRecords env pr.2 rest
      (pr.1 ++ rr.1, rr.2)

/-! ## Ranking Client: `sort_cars_with_gpt` (lines 78-159) -/

def MAX_CARS_TO_SEND : Nat := 100

/-- Lines 84-85: `for idx, car in enumerate(cars): car['id'] = idx` — the
positional ids written (in place, on the caller's dictionaries) starting
from `i`. -/
def assignIds : Nat → List Car → List Car
  | _, [] => []
  | i, c :: cs => { c with id := some (i : Int) } :: assignIds (i + 1) cs

/-- One element of the parsed response array: its `id` key (`none` =
missing, so that `car['id']` raises `KeyError`), and the rank/reason
fields the service is asked to produce. -/
structure RespElem where
  id : Option Int := none
  Rk : Option String := none
  Rsn : Option String := none
  deriving DecidableEq

/-- What the code observes of the ranking call (lines 111-128): the API
call raises (any transport error — caught by the outermost handler), the
response text fails `json.loads` (caught at line 125, which substitutes
`[]`), or a parsed array of elements.  The outbound prompt does not
influence the embedded outcome, so its construction (lines 88-108) is not
modelled. -/
inductive GptOutcome where
  | transportError
  | badJson
  | parsed (elems : List RespElem)

/-- A response element as returned to the caller: the element itself,
together with the original record whose attributes lines 135-152 merged
onto it (`none` when no original car matched its `id`, in which case the
element is kept bare after a logged warning). -/
structure OutCar where
  elem : RespElem
  merged : Option Car := none
  deriving DecidableEq

/-- Lines 78-159, `sort_cars_with_gpt`.  The first component is the
returned list; the second is the caller's record list after the call — the
truncation `cars[:MAX_CARS_TO_SEND]` makes a new list of the *same*
dictionaries, so the id assignment at lines 84-85 mutates the caller's
first `min(len, MAX_CARS_TO_SEND)` records in place, before the API call.
A response element with no `id` key makes `car['id']` raise `KeyError` in
the merge loop; that — like any other exception — reaches the outermost
`except Exception`, which logs and returns `[]`.  Matching elements are
joined to the original of equal `id` (first match, `next(...)`). -/
def sort_cars_with_gpt (response : GptOutcome) (cars0 : List Car) :
    List OutCar × List Car :=
  let cars := assignIds 0 (cars0.take MAX_CARS_TO_SEND)
  let callerView := cars ++ cars0.drop MAX_CARS_TO_SEND
  match response with
  | .transportError => ([], callerView)
  | .badJson => ([], callerView)
  | .parsed elems =>
    if elems.any (fun e => e.id.isNone) then ([], callerView)
    else
      (elems.map (fun e => { elem := e, merged := cars.find? (fun c => c.id == e.id) }),
        callerView)

/-! ## Helper lemmas -/

/-- Characterization of the per-record filter predicate of
`filter_and_rank_cars`: no special case at `max_price = 0` or
`max_mileage_km = 0` — zero is an ordinary upper bound. -/
theorem keepCar_iff {max_mileage_km max_price : Int} {ys : Int × Int} {c : Car} :
    keepCar max_mileage_km ys max_price c = true ↔
      ∃ p mi y, parseCarNums c = some (p, mi, y) ∧
        p ≤ (max_price : ℚ) ∧ mi ≤ max_mileage_km ∧ ys.1 ≤ y ∧ y ≤ ys.2 := by
  unfold keepCar
  cases hp : parseCarNums c with
  | none => simp
  | some t =>
    obtain ⟨p, mi, y⟩ := t
    dsimp only
    constructor
    · intro h
      split_ifs at h with h1 h2 h3
      push_neg at h3
      exact ⟨p, mi, y, rfl, not_lt.mp h1, not_lt.mp h2, h3.1, h3.2⟩
    · rintro ⟨p', mi', y', heq, hle1, hle2, hy1, hy2⟩
      obtain ⟨rfl, rfl, rfl⟩ : p = p' ∧ mi = mi' ∧ y = y' := by
        simpa [Prod.ext_iff] using heq
      rw [if_neg (not_lt.mpr hle1), if_neg (not_lt.mpr hle2),
        if_neg (by push_neg; exact ⟨hy1, hy2⟩)]

/-- Filtering an `orderedInsert` by a predicate that holds only on records
of one fixed sort key: the inserted record lands in front of all records
of its key class (the stability mechanism of insertion sort). -/
theorem orderedInsert_filter_key (x : Car) (l : List Car) (q : Car → Bool)
    (hq : ∀ z w : Car, q z = true → q w = true → keyLe z w) :
    (l.orderedInsert keyLe x).filter q =
      if q x then x :: l.filter q else l.filter q := by
  induction l with
  | nil => rw [List.orderedInsert_nil, List.filter_cons]
  | cons y ys ih =>
    by_cases hxy : keyLe x y
    · rw [List.orderedInsert_of_le keyLe ys hxy, List.filter_cons]
    · have hstep : (y :: ys).orderedInsert keyLe x = y :: ys.orderedInsert keyLe x := by
        simp only [List.orderedInsert, if_neg hxy]
      rw [hstep, List.filter_cons, List.filter_cons]
      cases hqx : q x with
      | true =>
        have hqy : q y = false := by
          cases hy : q y
          · rfl
          · exact absurd (hq x y hqx hy) hxy
        simp [hqy, hqx, ih]
      | false => simp [hqx, ih]

/-- A stable sort leaves the relative order of any one sort-key class
unchanged: the stability half of Python `sorted`. -/
theorem insertionSort_filter_key (l : List Car) (q : Car → Bool)
    (hq : ∀ z w : Car, q z = true → q w = true → keyLe z w) :
    (l.insertionSort keyLe).filter q = l.filter q := by
  induction l with
  | nil => rfl
  | cons x xs ih =>
    rw [List.insertionSort, orderedInsert_filter_key _ _ q hq, ih, List.filter_cons]

theorem assignIds_length (i : Nat) (l : List Car) :
    (assignIds i l).length = l.length := by
  induction l generalizing i with
  | nil => rfl
  | cons c cs ih => simp [assignIds, ih]

theorem assignIds_getElem? (i j : Nat) (l : List Car) :
    (assignIds i l)[j]? =
      (l[j]?).map (fun c => { c with id := some ((i + j : Nat) : Int) }) := by
  induction l generalizing i j with
  | nil => simp [assignIds]
  | cons c cs ih =>
    cases j with
    | zero => simp [assignIds]
    | succ j =>
      have harith : (i + 1) + j = i + (j + 1) := by omega
      simpa [assignIds, harith] using ih (i + 1) j

/-- Joining the response on `id` against the positionally numbered batch is
a positional lookup: the record found for id `v` is the `v`-th input
record (with its freshly written `id`). -/
theorem find?_assignIds (l : List Car) (i : Nat) (v : Int) :
    (assignIds i l).find? (fun c => c.id == some v) =
      if v < (i : Int) then none
      else (l[v.toNat - i]?).map (fun c => { c with id := some v }) := by
  induction l generalizing i with
  | nil =>
    simp only [assignIds, List.find?_nil, List.getElem?_nil, Option.map_none']
    rw [ite_self]
  | cons c cs ih =>
    rw [assignIds, List.find?_cons]
    by_cases hv : (i : Int) = v
    · have : (({ c with id := some (i : Int) } : Car).id == some v) = true := by
        simp [hv]
      rw [this]
      have h1 : ¬(v < (i : Int)) := by omega
      have h2 : v.toNat - i = 0 := by omega
      rw [if_neg h1, h2]
      simp [hv]
    · have : (({ c with id := some (i : Int) } : Car).id == some v) = false := by
        simp only [beq_eq_false_iff_ne, ne_eq, Option.some.injEq]
        exact hv
      rw [this, ih (i + 1)]
      by_cases hlt : v < (i : Int)
      · rw [if_pos (by omega : v < ((i + 1 : Nat) : Int)), if_pos hlt]
      · have hgt : (i : Int) < v := lt_of_le_of_ne (not_lt.mp hlt) hv
        rw [if_neg (by push_neg; omega : ¬ v < ((i + 1 : Nat) : Int)), if_neg hlt]
        have harith : v.toNat - i = (v.toNat - (i + 1)) + 1 := by omega
        rw [harith, List.getElem?_cons_succ]

/-- The caller's record list after `sort_cars_with_gpt` returns, on every
path (success or failure): ids were already written in place before the
API call. -/
theorem callerView_eq (response : GptOutcome) (cars0 : List Car) :
    (sort_cars_with_gpt response cars0).2 =
      assignIds 0 (cars0.take MAX_CARS_TO_SEND) ++ cars0.drop MAX_CARS_TO_SEND := by
  cases response with
  | transportError => rfl
  | badJson => rfl
  | parsed elems =>
    unfold sort_cars_with_gpt
    by_cases h : elems.any (fun e => e.id.isNone) = true <;> simp [h]

/-! ## Concrete records and environments used by the claim theorems -/

def exHighMileage : Car := { price := "1000", mileage := "999999", year := "2020" }

def exHighPrice : Car := { price := "1000", mileage := "0", year := "2020" }

def car9000 : Car := { url := "a", price := "9000", mileage := "100", year := "2020" }

def car10000 : Car := { url := "b", price := "10000", mileage := "100", year := "2020" }

def ex20_80 : Car := { url := "p", price := "20000", mileage := "80000", year := "2020" }

def ex15_50 : Car := { url := "q", price := "15000", mileage := "50000", year := "2020" }

def ex15_30 : Car := { url := "r", price := "15000", mileage := "30000", year := "2020" }

def rEmptyNums : Car := { url := "u", price := "", mileage := "", year := "2020" }

def rBadPrice : Car := { url := "v", price := "abc", mileage := "100", year := "2020" }

def exPass : Car := { url := "w", price := "20000", mileage := "30000", year := "2020" }

def exUrl : String := URL_BASE ++ "/a/x"

/-- A world in which every page fetch succeeds and extraction yields a
record whose `url` is the page's URL. -/
def exFetchEnv : FetchEnv :=
  { net := fun u => some u
    extract := fun _ u => some { url := u } }

/-- A cache holding exactly one file: a fresh but corrupt entry for
`exUrl`. -/
def exBadCache : Cache :=
  fun k => if k = cacheKey exUrl then some { fresh := true, content := .corrupt } else none

def emptyCache : Cache := fun _ => none

/-- Two search terms; the search pages share the listing `/a/z`. -/
def exMainEnv : MainEnv :=
  { toFetchEnv := exFetchEnv
    search := fun t =>
      if t = "t1" then some ["/a/x", "/a/y", "/a/z"]
      else if t = "t2" then some ["/a/z", "/a/u", "/a/v"]
      else none }

def exElem0 : RespElem := { id := some 0, Rk := some "1", Rsn := some "because" }

def exElem5 : RespElem := { id := some 5 }

/-! ## Claim theorems -/

/-- C1 (counterexample): `filter_and_rank_cars` applies `max_mileage = 0`
and `max_price = 0` as ordinary upper bounds, not as "unbounded" sentinels:
a record with mileage 999,999 that passes every other predicate (its
numbers parse, price 1000 ≤ 1,000,000, year 2020 within 2019-2024) is
excluded when `max_mileage = 0`, and a record with price 1000 is excluded
when `max_price = 0`. -/
theorem C1_counterexample :
    parseCarNums exHighMileage = some (1000, 999999, 2020) ∧
    filter_and_rank_cars [exHighMileage] 0 "2019-2024" 1000000 = [] ∧
    parseCarNums exHighPrice = some (1000, 0, 2020) ∧
    filter_and_rank_cars [exHighPrice] 1000000 "2019-2024" 0 = [] :=
  ⟨by decide, by decide, by decide, by decide⟩

/-- C1 (amended): the price and mileage bounds of `filter_and_rank_cars`
are always applied, with no special case at zero: under a well-formed year
range, a record is in the output exactly when it is in the input, its
numbers parse, and price ≤ max_price, mileage ≤ max_mileage and the year
lies in the window — so `max_mileage = 0` admits only parsed mileage ≤ 0. -/
theorem C1_bounds_always_apply (cars : List Car) (mm mp a b : Int) (yr : String)
    (c : Car) (hyr : parseYearRange yr = some (a, b)) :
    c ∈ filter_and_rank_cars cars mm yr mp ↔
      c ∈ cars ∧ ∃ p mi y, parseCarNums c = some (p, mi, y) ∧
        p ≤ (mp : ℚ) ∧ mi ≤ mm ∧ a ≤ y ∧ y ≤ b := by
  unfold filter_and_rank_cars
  rw [hyr]
  rw [List.mem_insertionSort, List.mem_filter]
  exact and_congr_right fun _ => keepCar_iff

/-- C1 witness: the amended characterization applied to a concrete record
within all bounds. -/
theorem C1_witness :
    exPass ∈ filter_and_rank_cars [exPass] 60000 "2019-2024" 25000 :=
  (C1_bounds_always_apply [exPass] 60000 25000 2019 2024 "2019-2024" exPass
      (by decide)).mpr
    ⟨by decide, 20000, 30000, 2020, by decide, by decide, by decide, by decide, by decide⟩

/-- C2 (counterexample): with a fresh but corrupt cache entry for a URL,
`fetch_car_page` does *not* perform a fresh network fetch and extraction —
even in a world where both would succeed — it returns `None` (the
`JSONDecodeError` is swallowed by the generic handler) and makes no
network request. -/
theorem C2_counterexample :
    is_url_cached exBadCache exUrl = true ∧
    load_url_cache exBadCache exUrl = LoadResult.raises ∧
    exFetchEnv.net exUrl = some exUrl ∧
    exFetchEnv.extract exUrl exUrl = some { url := exUrl } ∧
    (fetch_car_page exFetchEnv exBadCache exUrl).1.network = false ∧
    (fetch_car_page exFetchEnv exBadCache exUrl).1.data = none :=
  ⟨by decide, by decide, rfl, rfl, by decide, by decide⟩

/-- C2 (amended): a cache file that exists, is within the TTL, but holds
malformed JSON makes `fetch_car_page` catch the parse error and return
`None` for that URL, with no network fetch and no exception escaping the
operation; the cache is left unchanged. -/
theorem C2_corrupt_cache_no_refetch (env : FetchEnv) (cache : Cache) (url : String)
    (hfresh : is_url_cached cache url = true)
    (hcorrupt : load_url_cache cache url = LoadResult.raises) :
    fetch_car_page env cache url = ({ data := none, network := false }, cache) := by
  unfold fetch_car_page
  rw [hfresh, hcorrupt]
  simp

/-- C2 witness: the amended behaviour at the concrete corrupt cache. -/
theorem C2_witness :
    is_url_cached exBadCache exUrl = true ∧
    fetch_car_page exFetchEnv exBadCache exUrl =
      ({ data := none, network := false }, exBadCache) :=
  ⟨by decide, C2_corrupt_cache_no_refetch _ _ _ (by decide) (by decide)⟩

/-- C3 (counterexample): the accumulated record list of the `main` loop is
deduplicated only within each search term: two terms discovering 3 listing
URLs each, with one URL shared, accumulate 6 records (not 5), the shared
URL contributing one record per term, so `url` is not unique across the
accumulated set. -/
theorem C3_counterexample :
    (collectRecords exMainEnv emptyCache ["t1", "t2"]).1.length = 6 ∧
    ((collectRecords exMainEnv emptyCache ["t1", "t2"]).1.map Car.url).count
      (URL_BASE ++ "/a/z") = 2 ∧
    ¬ ((collectRecords exMainEnv emptyCache ["t1", "t2"]).1.map Car.url).Nodup :=
  ⟨by decide, by decide, by decide⟩

/-- C3 (amended): deduplication of discovered listing URLs is per search
term — `get_car_page_urls` never returns a duplicate URL, so one term
fetches each URL at most once — but records accumulate across terms
without cross-term deduplication: in the two-term overlap scenario exactly
6 records accumulate, the overlapping URL's second record being served
from the cache written by the first term. -/
theorem C3_per_term_dedup :
    (∀ hrefs : List String, (get_car_page_urls hrefs).Nodup) ∧
    (collectRecords exMainEnv emptyCache ["t1", "t2"]).1.length = 6 :=
  ⟨fun _ => List.nodup_dedup _, by decide⟩

/-- C4 (counterexample): `sorted(..., key=lambda car: (car.get("price", 0),
car.get("mileage", 0)))` compares the raw *string* values, so the output is
not in ascending numeric order: two records with prices 9000 and 10000
(numerically 9000 < 10000) come out as [10000, 9000], because
"10000" < "9000" lexicographically. -/
theorem C4_counterexample :
    filter_and_rank_cars [car9000, car10000] 10000000 "2000-2030" 10000000 =
      [car10000, car9000] ∧
    parseCarNums car9000 = some (9000, 100, 2020) ∧
    parseCarNums car10000 = some (10000, 100, 2020) ∧
    (9000 : ℚ) < 10000 :=
  ⟨by decide, by decide, by decide, by decide⟩

/-- C4 (amended): the output of `filter_and_rank_cars` is the stable sort
of the surviving records under the tuple order on the raw *string* values
`(price, mileage)` (Python string comparison, lexicographic by code
point): it is sorted under `keyLe`, is a permutation of the surviving
records, every class of records tied on both key strings keeps its
input-relative order, and on the spec's example triple — where string and
numeric order coincide — the claimed order (15000,30000), (15000,50000),
(20000,80000) holds. -/
theorem C4_stable_string_sort (cars : List Car) (mm mp : Int) (yr : String) :
    List.Sorted keyLe (filter_and_rank_cars cars mm yr mp) ∧
    List.Perm (filter_and_rank_cars cars mm yr mp) (keptCars cars mm yr mp) ∧
    (∀ p m : String,
      (filter_and_rank_cars cars mm yr mp).filter
          (fun c => c.price == p && c.mileage == m) =
        (keptCars cars mm yr mp).filter (fun c => c.price == p && c.mileage == m)) ∧
    filter_and_rank_cars [ex20_80, ex15_50, ex15_30] 10000000 "2000-2030" 10000000 =
      [ex15_30, ex15_50, ex20_80] := by
  refine ⟨?_, ?_, ?_, by decide⟩
  · unfold filter_and_rank_cars
    cases parseYearRange yr with
    | none => simp
    | some ys => exact List.sorted_insertionSort keyLe _
  · unfold filter_and_rank_cars keptCars
    cases parseYearRange yr with
    | none => exact List.Perm.refl _
    | some ys => exact List.perm_insertionSort keyLe _
  · intro p m
    unfold filter_and_rank_cars keptCars
    cases parseYearRange yr with
    | none => rfl
    | some ys =>
      refine insertionSort_filter_key _ _ fun z w hz hw => ?_
      rw [Bool.and_eq_true, beq_iff_eq, beq_iff_eq] at hz hw
      exact keyLe_of_same_key (hz.1.trans hw.1.symm) (hz.2.trans hw.2.symm)

/-- C4 witness: the amended sortedness at a concrete input. -/
theorem C4_witness :
    List.Sorted keyLe
      (filter_and_rank_cars [ex20_80, ex15_50, ex15_30] 10000000 "2000-2030" 10000000) :=
  (C4_stable_string_sort [ex20_80, ex15_50, ex15_30] 10000000 10000000 "2000-2030").1

/-- C5 (counterexample): a record whose price and mileage strings are empty
cannot be coerced (`float("")` and `int("")` raise), yet
`filter_and_rank_cars` does not exclude it: the `if price_raw else 0`
guards substitute the default 0 and the record is kept. -/
theorem C5_counterexample :
    pyFloat (cleanPrice rEmptyNums.price) = none ∧
    pyInt (cleanMileage rEmptyNums.mileage) = none ∧
    filter_and_rank_cars [rEmptyNums] 60000 "2019-2024" 25000 = [rEmptyNums] :=
  ⟨by decide, by decide, by decide⟩

/-- C5 (amended): a record on which the code's coercion of price, mileage
or year raises `ValueError` — a *nonempty* non-numeric cleaned price or
mileage string, or a non-numeric year — is excluded from the output of
`filter_and_rank_cars` (skipped, not defaulted); an *empty* cleaned price
or mileage string, however, is defaulted to 0 and the record kept. -/
theorem C5_unparsable_excluded (cars : List Car) (mm mp : Int) (yr : String)
    (c : Car) (h : parseCarNums c = none) :
    c ∉ filter_and_rank_cars cars mm yr mp := by
  unfold filter_and_rank_cars
  cases hyr : parseYearRange yr with
  | none => simp
  | some ys =>
    intro hmem
    rw [List.mem_insertionSort] at hmem
    have hk := List.of_mem_filter hmem
    rw [keepCar_iff] at hk
    obtain ⟨p, mi, y, heq, -⟩ := hk
    rw [h] at heq
    exact Option.noConfusion heq

/-- C5 witness: a record with non-numeric price "abc" is excluded. -/
theorem C5_witness :
    parseCarNums rBadPrice = none ∧
    rBadPrice ∉ filter_and_rank_cars [rBadPrice] 60000 "2019-2024" 25000 :=
  ⟨by decide, C5_unparsable_excluded _ _ _ _ _ (by decide)⟩

/-- The failure situations of the ranking call visible to
`sort_cars_with_gpt`: a transport error from the API call, a response text
that is not JSON, or a parsed response element missing the expected `id`
key. -/
def rankingFailure : GptOutcome → Prop
  | .transportError => True
  | .badJson => True
  | .parsed elems => ∃ e ∈ elems, e.id = none

/-- C6 (confirmed): on every failure inside the ranking operation —
transport error, non-JSON response text, or a response element missing the
expected structure — `sort_cars_with_gpt` returns the empty list; being a
total function of the outcome, it never propagates an exception to its
caller. -/
theorem C6_failure_returns_empty (response : GptOutcome) (cars0 : List Car)
    (h : rankingFailure response) :
    (sort_cars_with_gpt response cars0).1 = [] := by
  cases response with
  | transportError => rfl
  | badJson => rfl
  | parsed elems =>
    obtain ⟨e, he, hid⟩ := h
    unfold sort_cars_with_gpt
    have hany : elems.any (fun e => e.id.isNone) = true :=
      List.any_eq_true.mpr ⟨e, he, by rw [hid]; rfl⟩
    simp only [hany, if_true]

/-- C6 witness: a response element with no `id` key yields `[]`. -/
theorem C6_witness :
    (sort_cars_with_gpt (GptOutcome.parsed [{ id := none }]) [car9000]).1 = [] :=
  C6_failure_returns_empty _ _ ⟨{ id := none }, List.mem_singleton.mpr rfl, rfl⟩

/-- C7 (confirmed): `sort_cars_with_gpt` truncates its input to
`MAX_CARS_TO_SEND` records and numbers them positionally 0..k-1; each
parsed response element carrying an `id` (the hypothesis — a missing `id`
aborts the merge, claim C6) is joined back positionally: if its id is a
valid position of the truncated batch the original record's attributes are
merged onto it, and otherwise it is kept in the output unmerged (after a
logged warning), never discarded — the output has one element per response
element. -/
theorem C7_merge_by_positional_id (cars0 : List Car) (elems : List RespElem)
    (h : ∀ e ∈ elems, e.id ≠ none) :
    (sort_cars_with_gpt (GptOutcome.parsed elems) cars0).1 =
      elems.map (fun e =>
        { elem := e
          merged :=
            match e.id with
            | none => none
            | some v =>
              if v < 0 then none
              else ((cars0.take MAX_CARS_TO_SEND)[v.toNat]?).map
                (fun c => { c with id := some v }) }) := by
  unfold sort_cars_with_gpt
  have hany : elems.any (fun e => e.id.isNone) = false := by
    rw [List.any_eq_false]
    intro e he
    cases hid : e.id with
    | none => exact absurd hid (h e he)
    | some v => simp
  simp only [hany, Bool.false_eq_true, if_false]
  refine List.map_congr_left fun e he => ?_
  obtain ⟨v, hv⟩ := Option.ne_none_iff_exists'.mp (h e he)
  rw [hv, find?_assignIds]
  have h0 : v.toNat - 0 = v.toNat := by omega
  rw [h0]
  rfl

/-- C7 witness: two originals, a response with ids 0 and 5 — id 0 is
merged with the first original, id 5 is kept unmerged. -/
theorem C7_witness :
    (sort_cars_with_gpt (GptOutcome.parsed [exElem0, exElem5]) [car9000, car10000]).1 =
      [{ elem := exElem0, merged := some { car9000 with id := some 0 } },
        { elem := exElem5, merged := none }] := by
  rw [C7_merge_by_positional_id _ _ (by decide)]
  decide

/-- C8 (confirmed): a `year_range` string that parses neither as one
integer nor as an integer `start-end` pair makes `filter_and_rank_cars`
abort the whole filtering step and return `[]`, whatever the records. -/
theorem C8_malformed_year_range (cars : List Car) (mm mp : Int) (yr : String)
    (h : parseYearRange yr = none) :
    filter_and_rank_cars cars mm yr mp = [] := by
  unfold filter_and_rank_cars
  rw [h]

/-- C8 witness: three `-`-separated segments, and non-numeric text, both
abort the filter even though the record would pass the other bounds. -/
theorem C8_witness :
    parseYearRange "2019-2024-2025" = none ∧
    filter_and_rank_cars [exPass] 60000 "2019-2024-2025" 25000 = [] ∧
    parseYearRange "twenty19" = none ∧
    filter_and_rank_cars [exPass] 60000 "twenty19" 25000 = [] :=
  ⟨by decide, C8_malformed_year_range _ _ _ _ (by decide), by decide,
    C8_malformed_year_range _ _ _ _ (by decide)⟩

/-- C9 (confirmed): filtering is idempotent: applying
`filter_and_rank_cars` with the same well-formed bounds to its own output
returns the same list in the same order (every output record still passes
the predicate, and a stable sort of an already sorted list is the
identity). -/
theorem C9_filter_idempotent (cars : List Car) (mm mp : Int) (yr : String)
    (h : parseYearRange yr ≠ none) :
    filter_and_rank_cars (filter_and_rank_cars cars mm yr mp) mm yr mp =
      filter_and_rank_cars cars mm yr mp := by
  unfold filter_and_rank_cars
  cases hyr : parseYearRange yr with
  | none => exact absurd hyr h
  | some ys =>
    dsimp only
    have h1 : (List.insertionSort keyLe (cars.filter (keepCar mm ys mp))).filter
        (keepCar mm ys mp) =
        List.insertionSort keyLe (cars.filter (keepCar mm ys mp)) := by
      rw [List.filter_eq_self]
      intro a ha
      rw [List.mem_insertionSort] at ha
      exact List.of_mem_filter ha
    rw [h1, List.Sorted.insertionSort_eq (List.sorted_insertionSort keyLe _)]

/-- C9 witness: idempotence at a concrete list and well-formed bounds. -/
theorem C9_witness :
    filter_and_rank_cars
        (filter_and_rank_cars [exPass, rEmptyNums] 60000 "2019-2024" 25000)
        60000 "2019-2024" 25000 =
      filter_and_rank_cars [exPass, rEmptyNums] 60000 "2019-2024" 25000 :=
  C9_filter_idempotent [exPass, rEmptyNums] 60000 25000 "2019-2024" (by decide)

/-- C10 (confirmed): `sort_cars_with_gpt` mutates its caller's records:
whatever the outcome of the ranking call — including every failure path
that returns `[]` — the caller's list afterwards has the same length, its
first `min(length, MAX_CARS_TO_SEND)` records carry the freshly written
positional `id`, and the records beyond the truncation point are
untouched. -/
theorem C10_ids_mutated_in_place (response : GptOutcome) (cars0 : List Car) :
    (sort_cars_with_gpt response cars0).2.length = cars0.length ∧
    ∀ i : Nat,
      (sort_cars_with_gpt response cars0).2[i]? =
        if i < min cars0.length MAX_CARS_TO_SEND
        then (cars0[i]?).map (fun c => { c with id := some (i : Int) })
        else cars0[i]? := by
  rw [callerView_eq]
  constructor
  · rw [List.length_append, assignIds_length, List.length_take, List.length_drop]
    omega
  · intro i
    rw [List.getElem?_append, assignIds_length, List.length_take,
      Nat.min_comm cars0.length MAX_CARS_TO_SEND]
    by_cases hi : i < min MAX_CARS_TO_SEND cars0.length
    · rw [if_pos hi, if_pos hi, assignIds_getElem?, List.getElem?_take,
        if_pos (lt_of_lt_of_le hi (Nat.min_le_left _ _))]
      simp
    · rw [if_neg hi, if_neg hi, List.getElem?_drop]
      rcases le_or_lt MAX_CARS_TO_SEND cars0.length with hle | hlt
      · rw [Nat.min_eq_left hle] at hi
        have harith : MAX_CARS_TO_SEND + (i - min MAX_CARS_TO_SEND cars0.length) = i := by
          rw [Nat.min_eq_left hle]
          omega
        rw [harith]
      · rw [Nat.min_eq_right (le_of_lt hlt)] at hi
        rw [List.getElem?_eq_none (by omega),
          List.getElem?_eq_none (show cars0.length ≤ i by omega)]

/-- C10 witness: after a transport error the caller's only record carries
the written id 0 even though the result was `[]`. -/
theorem C10_witness :
    (sort_cars_with_gpt GptOutcome.transportError [car9000]).2[0]? =
      some { car9000 with id := some 0 } := by
  rw [(C10_ids_mutated_in_place GptOutcome.transportError [car9000]).2 0]
  decide

end AutoTrader
